import Mathlib

/-!
Shallow embedding of src/translator.py: the turn-processing pipeline of a
live conversation translator (trim → plausibility filter → translate →
asynchronous speech synthesis → record in session history).  External
services (the translation backend and the audio stack) are modelled as
explicit parameters, and console output as a list of observable events.
-/

namespace Translator

/-- Result of one call to the external translation service
(GoogleTranslator(source, target).translate(text)): the Python call may
return a string, return None, or raise an exception. -/
inductive SvcResult where
  | ok (result : Option String)
  | err (msg : String)
  deriving Repr, DecidableEq

/-- Observable console events emitted by the translator.  Rich-text color
markup and display-name formatting are abstracted away: each event keeps
the language code and the payload text that the source interpolates. -/
inductive ConsoleMsg where
  | translationError (msg : String)
  | skipNoise (text : String)
  | showOriginal (lang text : String)
  | showTranslated (lang text : String)
  | speakingNote
  | audioImportWarning
  | audioError (msg : String)
  deriving Repr, DecidableEq

/-- ConversationEntry (src/translator.py, lines 44-56).  The timestamp is
supplied by the caller as the formatted wall-clock string that
datetime.now().strftime would produce at creation time. -/
structure ConversationEntry where
  original : String
  translated : String
  source_lang : String
  target_lang : String
  timestamp : String
  deriving Repr, DecidableEq

/-- Session state of LiveTranslator (lines 59-63): the language pair set
at construction and the in-memory history list. -/
structure LiveTranslator where
  source_lang : String
  target_lang : String
  history : List ConversationEntry
  deriving Repr, DecidableEq

/-- Environment of one speech-synthesis attempt (lines 83-103): either the
optional audio imports are missing, the gTTS/pygame pipeline raises, or
playback completes normally. -/
inductive SpeakEnv where
  | importMissing
  | audioFails (msg : String)
  | allOk
  deriving Repr, DecidableEq

/-- Failure raised by the body of speak before the handlers catch it. -/
inductive SpeakErr where
  | importError
  | audioException (msg : String)
  deriving Repr, DecidableEq

/-- Body of LiveTranslator.speak before exception handling (lines 85-99):
whether it raises depends only on the audio environment. -/
def speakBody (env : SpeakEnv) : Except SpeakErr Unit :=
  match env with
  | .importMissing => .error .importError
  | .audioFails m => .error (.audioException m)
  | .allOk => .ok ()

/-- LiveTranslator.speak (lines 83-103): every failure of the body is
caught and turned into a console warning, so speak always returns (no
exception escapes); its events appear on the spawned thread. -/
def speak (env : SpeakEnv) (_text _lang : String) : List ConsoleMsg :=
  match speakBody env with
  | .ok _ => []
  | .error .importError => [.audioImportWarning]
  | .error (.audioException m) => [.audioError m]

/-- Python str.strip() as used on line 116: drop leading and trailing
whitespace characters.  Defined structurally over the character list so
that it evaluates inside the kernel. -/
def pyStrip (s : String) : String :=
  ⟨((s.data.dropWhile Char.isWhitespace).reverse.dropWhile
      Char.isWhitespace).reverse⟩

/-- The vowel allow-list of LiveTranslator._looks_like_speech (line 112). -/
def vowels : List Char := "aeiouAEIOUअआइईउऊएऐओऔ".toList

/-- LiveTranslator._looks_like_speech (lines 109-113). -/
def looksLikeSpeech (text : String) : Bool :=
  if text.length < 2 then false
  else text.toList.any (fun ch => vowels.contains ch)

/-- LiveTranslator.translate (lines 69-77): invoke the service; on an
exception print a translation error and return the empty string; a None
or empty result collapses to the empty string (result or ""). -/
def translate (svc : String → String → String → SvcResult)
    (src tgt text : String) : String × List ConsoleMsg :=
  match svc src tgt text with
  | .ok result => (result.getD "", [])
  | .err e => ("", [ConsoleMsg.translationError e])

/-- The string value LiveTranslator.translate extracts from a service
outcome: the result (or "" when it is None) on success, "" after a caught
exception. -/
def svcValue : SvcResult → String
  | .ok result => result.getD ""
  | .err _ => ""

/-- Did the service call raise an exception? -/
def svcRaised : SvcResult → Bool
  | .ok _ => false
  | .err _ => true

/-- Outcome of one LiveTranslator.process call: the updated session state,
the returned value, the console events printed on the calling thread, the
console events of the spawned speech thread, and the list of texts that
were sent to the translation service. -/
structure ProcessResult where
  state : LiveTranslator
  ret : Option ConversationEntry
  console : List ConsoleMsg
  spawned : List ConsoleMsg
  svcCalls : List String
  deriving Repr, DecidableEq

/-- LiveTranslator.process (lines 115-147).  The source looks up
LANG_COLOR and LANGUAGES for display only; those lookups are abstracted
into the showOriginal/showTranslated events (the CLI only ever constructs
sessions with the two configured language codes). -/
def process (svc : String → String → String → SvcResult) (env : SpeakEnv)
    (now : String) (t : LiveTranslator) (rawText : String) : ProcessResult :=
  let text := pyStrip rawText
  if text = "" then
    ⟨t, none, [], [], []⟩
  else if looksLikeSpeech text then
    let origMsg := ConsoleMsg.showOriginal t.source_lang text
    let tr := translate svc t.source_lang t.target_lang text
    let translated := tr.1
    if translated = "" then
      ⟨t, none, origMsg :: tr.2, [], [text]⟩
    else
      let entry : ConversationEntry :=
        ⟨text, translated, t.source_lang, t.target_lang, now⟩
      ⟨⟨t.source_lang, t.target_lang, t.history ++ [entry]⟩, some entry,
        origMsg :: tr.2 ++
          [ConsoleMsg.showTranslated t.target_lang translated,
           ConsoleMsg.speakingNote],
        speak env translated t.target_lang, [text]⟩
  else
    ⟨t, none, [ConsoleMsg.skipNoise text], [], []⟩

/-- One rendered row of the history table (lines 254-261): time, original,
translated, with color markup abstracted away. -/
def rowOf (e : ConversationEntry) : String × String × String :=
  (e.timestamp, e.original, e.translated)

/-- LiveTranslator._show_history (lines 244-263): one row per history
entry in insertion order; an empty history renders no rows. -/
def showHistory (t : LiveTranslator) : List (String × String × String) :=
  t.history.map rowOf

/-- Does a console transcript contain a translation-error line? -/
def hasTranslationError : List ConsoleMsg → Bool
  | [] => false
  | .translationError _ :: _ => true
  | _ :: rest => hasTranslationError rest

/-- Does a console transcript echo the original text? -/
def hasShowOriginal : List ConsoleMsg → Bool
  | [] => false
  | .showOriginal _ _ :: _ => true
  | _ :: rest => hasShowOriginal rest

/-- Does a console transcript emit a translated text? -/
def hasShowTranslated : List ConsoleMsg → Bool
  | [] => false
  | .showTranslated _ _ :: _ => true
  | _ :: rest => hasShowTranslated rest

/-- Language invariant of a session: every logged entry carries the
session's fixed language pair. -/
def langInv (t : LiveTranslator) : Prop :=
  ∀ e ∈ t.history,
    e.source_lang = t.source_lang ∧ e.target_lang = t.target_lang

/-- A string accepted by the plausibility filter is non-empty, since the
filter already rejects strings of length below two. -/
theorem looksLikeSpeech_ne_empty {s : String}
    (h : looksLikeSpeech s = true) : s ≠ "" := by
  intro he
  rw [he] at h
  exact absurd h (by decide)

/-- Case analysis on process: either the turn changes nothing and returns
nothing, or it appends exactly one entry built from the stripped input and
the session's language pair and returns that entry. -/
theorem process_shape (svc : String → String → String → SvcResult)
    (env : SpeakEnv) (now : String) (t : LiveTranslator) (rawText : String) :
    ((process svc env now t rawText).state = t ∧
      (process svc env now t rawText).ret = none) ∨
    (∃ s : String,
      (process svc env now t rawText).ret =
        some ⟨pyStrip rawText, s, t.source_lang, t.target_lang, now⟩ ∧
      (process svc env now t rawText).state =
        ⟨t.source_lang, t.target_lang,
          t.history ++
            [⟨pyStrip rawText, s, t.source_lang, t.target_lang, now⟩]⟩) := by
  unfold process
  by_cases h1 : pyStrip rawText = ""
  · left; simp [h1]
  · cases h2 : looksLikeSpeech (pyStrip rawText) with
    | false => left; simp [h1, h2]
    | true =>
      by_cases h3 :
          (translate svc t.source_lang t.target_lang (pyStrip rawText)).1 = ""
      · left; simp [h1, h2, h3]
      · right
        exact ⟨(translate svc t.source_lang t.target_lang (pyStrip rawText)).1,
          by simp [h1, h2, h3]⟩

/-- C1: for an input that passes the plausibility filter, when the
translation service returns a non-empty string the turn succeeds: process
returns an entry whose original is the stripped input and whose translated
text is the service result, and the history grows by exactly that entry,
appended at the end. -/
theorem process_success (svc : String → String → String → SvcResult)
    (env : SpeakEnv) (now : String) (t : LiveTranslator) (rawText s : String)
    (hfilter : looksLikeSpeech (pyStrip rawText) = true)
    (hsvc : svc t.source_lang t.target_lang (pyStrip rawText) =
      SvcResult.ok (some s))
    (hne : s ≠ "") :
    (process svc env now t rawText).ret =
      some ⟨pyStrip rawText, s, t.source_lang, t.target_lang, now⟩ ∧
    (process svc env now t rawText).state.history =
      t.history ++ [⟨pyStrip rawText, s, t.source_lang, t.target_lang, now⟩] ∧
    (process svc env now t rawText).state.history.length =
      t.history.length + 1 := by
  have hne0 : pyStrip rawText ≠ "" := looksLikeSpeech_ne_empty hfilter
  unfold process translate
  simp [hne0, hfilter, hsvc, hne]

/-- Witness for C1 at the spec scenario: "hola" from Spanish to Hindi with
a mock service returning "नमस्ते". -/
theorem process_success_witness :
    (process (fun _ _ _ => SvcResult.ok (some "नमस्ते")) SpeakEnv.allOk
        "12:00:00" ⟨"es", "hi", []⟩ "hola").ret =
      some ⟨"hola", "नमस्ते", "es", "hi", "12:00:00"⟩ ∧
    (process (fun _ _ _ => SvcResult.ok (some "नमस्ते")) SpeakEnv.allOk
        "12:00:00" ⟨"es", "hi", []⟩ "hola").state.history.length = 1 := by
  have h := process_success (fun _ _ _ => SvcResult.ok (some "नमस्ते"))
    SpeakEnv.allOk "12:00:00" ⟨"es", "hi", []⟩ "hola" "नमस्ते"
    (by decide) rfl (by decide)
  have hstrip : pyStrip "hola" = "hola" := by decide
  rw [hstrip] at h
  exact ⟨h.1, by simp [h.2.2]⟩

/-- C5: a stripped input of length below two is rejected: process returns
nothing, never calls the translation service, and appends no entry. -/
theorem process_short_input (svc : String → String → String → SvcResult)
    (env : SpeakEnv) (now : String) (t : LiveTranslator) (rawText : String)
    (h : (pyStrip rawText).length < 2) :
    (process svc env now t rawText).ret = none ∧
    (process svc env now t rawText).state = t ∧
    (process svc env now t rawText).svcCalls = [] := by
  have hf : looksLikeSpeech (pyStrip rawText) = false := by
    unfold looksLikeSpeech
    simp [h]
  unfold process
  by_cases h1 : pyStrip rawText = ""
  · simp [h1]
  · simp [h1, hf]

/-- Witness for C5 at the one-character input "a". -/
theorem process_short_input_witness :
    (process (fun _ _ _ => SvcResult.ok (some "x")) SpeakEnv.allOk
      "12:00:00" ⟨"es", "hi", []⟩ "a").ret = none ∧
    (process (fun _ _ _ => SvcResult.ok (some "x")) SpeakEnv.allOk
      "12:00:00" ⟨"es", "hi", []⟩ "a").state = ⟨"es", "hi", []⟩ ∧
    (process (fun _ _ _ => SvcResult.ok (some "x")) SpeakEnv.allOk
      "12:00:00" ⟨"es", "hi", []⟩ "a").svcCalls = [] :=
  process_short_input (fun _ _ _ => SvcResult.ok (some "x")) SpeakEnv.allOk
    "12:00:00" ⟨"es", "hi", []⟩ "a" (by decide)

/-- C6: a non-empty stripped input with no character from the vowel
allow-list is rejected as noise: process returns nothing, appends no
entry, never calls the translation service, and the only console event is
the observable skipped notification. -/
theorem process_noise (svc : String → String → String → SvcResult)
    (env : SpeakEnv) (now : String) (t : LiveTranslator) (rawText : String)
    (hne : pyStrip rawText ≠ "")
    (hnov : ∀ ch ∈ (pyStrip rawText).toList, vowels.contains ch = false) :
    (process svc env now t rawText).ret = none ∧
    (process svc env now t rawText).state = t ∧
    (process svc env now t rawText).svcCalls = [] ∧
    (process svc env now t rawText).console =
      [ConsoleMsg.skipNoise (pyStrip rawText)] := by
  have hf : looksLikeSpeech (pyStrip rawText) = false := by
    unfold looksLikeSpeech
    split
    · rfl
    · simp only [List.any_eq_false]
      intro ch hch
      simpa using hnov ch hch
  unfold process
  simp [hne, hf]

/-- Witness for C6 at the spec scenario "123" (digits only, no vowels). -/
theorem process_noise_witness :
    (process (fun _ _ _ => SvcResult.ok (some "x")) SpeakEnv.allOk
      "12:00:00" ⟨"es", "hi", []⟩ "123").ret = none ∧
    (process (fun _ _ _ => SvcResult.ok (some "x")) SpeakEnv.allOk
      "12:00:00" ⟨"es", "hi", []⟩ "123").state = ⟨"es", "hi", []⟩ ∧
    (process (fun _ _ _ => SvcResult.ok (some "x")) SpeakEnv.allOk
      "12:00:00" ⟨"es", "hi", []⟩ "123").svcCalls = [] ∧
    (process (fun _ _ _ => SvcResult.ok (some "x")) SpeakEnv.allOk
      "12:00:00" ⟨"es", "hi", []⟩ "123").console =
      [ConsoleMsg.skipNoise (pyStrip "123")] :=
  process_noise (fun _ _ _ => SvcResult.ok (some "x")) SpeakEnv.allOk
    "12:00:00" ⟨"es", "hi", []⟩ "123" (by decide) (by decide)

/-- C8: an input that strips to the empty string produces no effect at
all: nothing returned, no console event of any kind, no service call, no
spawned audio, and an unchanged session. -/
theorem process_empty_input (svc : String → String → String → SvcResult)
    (env : SpeakEnv) (now : String) (t : LiveTranslator) (rawText : String)
    (h : pyStrip rawText = "") :
    process svc env now t rawText = ⟨t, none, [], [], []⟩ := by
  unfold process
  simp [h]

/-- Witness for C8 at the whitespace-only input. -/
theorem process_empty_input_witness :
    process (fun _ _ _ => SvcResult.ok (some "x")) SpeakEnv.allOk
      "12:00:00" ⟨"es", "hi", []⟩ "   " =
      ⟨⟨"es", "hi", []⟩, none, [], [], []⟩ :=
  process_empty_input (fun _ _ _ => SvcResult.ok (some "x")) SpeakEnv.allOk
    "12:00:00" ⟨"es", "hi", []⟩ "   " (by decide)

/-- C10: the vowel allow-list is exactly the ten Latin vowels in both
cases plus the ten Devanagari independent vowel letters, so the input
"नमस्ते", whose vowel sounds occur only as dependent matra signs, contains
no allow-listed character and is rejected as noise for any session and
any service: nothing is returned and the history is unchanged. -/
theorem vowel_allowlist_exact :
    vowels = ['a', 'e', 'i', 'o', 'u', 'A', 'E', 'I', 'O', 'U',
      'अ', 'आ', 'इ', 'ई', 'उ', 'ऊ', 'ए', 'ऐ', 'ओ', 'औ'] ∧
    ∀ (svc : String → String → String → SvcResult) (env : SpeakEnv)
      (now : String) (t : LiveTranslator),
      (process svc env now t "नमस्ते").ret = none ∧
      (process svc env now t "नमस्ते").state = t := by
  constructor
  · decide
  · intro svc env now t
    have h1 : pyStrip "नमस्ते" = "नमस्ते" := by decide
    have h0 : ("नमस्ते" : String) ≠ "" := by decide
    have h2 : looksLikeSpeech "नमस्ते" = false := by decide
    unfold process
    rw [h1]
    simp [h0, h2]

/-- C2 counterexample: with a service that returns an empty result
without raising, process on "hola" returns nothing and leaves the history
unchanged, yet no error notification appears on the console — refuting
the claim that every failed-or-empty translation surfaces an error
notification. -/
theorem process_failure_counterexample :
    (process (fun _ _ _ => SvcResult.ok (some "")) SpeakEnv.allOk
      "12:00:00" ⟨"es", "hi", []⟩ "hola").ret = none ∧
    (process (fun _ _ _ => SvcResult.ok (some "")) SpeakEnv.allOk
      "12:00:00" ⟨"es", "hi", []⟩ "hola").state.history = [] ∧
    hasTranslationError
      (process (fun _ _ _ => SvcResult.ok (some "")) SpeakEnv.allOk
        "12:00:00" ⟨"es", "hi", []⟩ "hola").console = false := by
  decide

/-- C2 amended: for an input that reaches the translation step, whenever
the service raises or returns an empty (or missing) result, process
returns nothing and the session state is unchanged — no entry is logged —
and an error notification is surfaced exactly when the service raised,
not when it merely returned an empty result. -/
theorem process_failed_translation (svc : String → String → String → SvcResult)
    (env : SpeakEnv) (now : String) (t : LiveTranslator) (rawText : String)
    (hfilter : looksLikeSpeech (pyStrip rawText) = true)
    (hempty :
      svcValue (svc t.source_lang t.target_lang (pyStrip rawText)) = "") :
    (process svc env now t rawText).ret = none ∧
    (process svc env now t rawText).state = t ∧
    hasTranslationError (process svc env now t rawText).console =
      svcRaised (svc t.source_lang t.target_lang (pyStrip rawText)) := by
  have hne0 : pyStrip rawText ≠ "" := looksLikeSpeech_ne_empty hfilter
  unfold process translate
  cases hres : svc t.source_lang t.target_lang (pyStrip rawText) with
  | ok r =>
    rw [hres] at hempty
    simp only [svcValue] at hempty
    simp [hne0, hfilter, hres, hempty, svcRaised, hasTranslationError]
  | err e =>
    simp [hne0, hfilter, hres, svcRaised, hasTranslationError]

/-- Witness for C2 at a raising service on input "hola". -/
theorem process_failed_translation_witness :
    (process (fun _ _ _ => SvcResult.err "network down") SpeakEnv.allOk
      "12:00:00" ⟨"es", "hi", []⟩ "hola").ret = none ∧
    (process (fun _ _ _ => SvcResult.err "network down") SpeakEnv.allOk
      "12:00:00" ⟨"es", "hi", []⟩ "hola").state = ⟨"es", "hi", []⟩ ∧
    hasTranslationError
      (process (fun _ _ _ => SvcResult.err "network down") SpeakEnv.allOk
        "12:00:00" ⟨"es", "hi", []⟩ "hola").console =
      svcRaised (SvcResult.err "network down") :=
  process_failed_translation (fun _ _ _ => SvcResult.err "network down")
    SpeakEnv.allOk "12:00:00" ⟨"es", "hi", []⟩ "hola" (by decide) rfl

/-- C3: a freshly constructed session satisfies the language invariant,
and process preserves both the session's language pair and the invariant
that every history entry carries exactly that pair. -/
theorem process_lang_invariant (svc : String → String → String → SvcResult)
    (env : SpeakEnv) (now : String) (t : LiveTranslator)
    (rawText src tgt : String) (hinv : langInv t) :
    langInv ⟨src, tgt, []⟩ ∧
    (process svc env now t rawText).state.source_lang = t.source_lang ∧
    (process svc env now t rawText).state.target_lang = t.target_lang ∧
    langInv (process svc env now t rawText).state := by
  refine ⟨fun e he => absurd he (List.not_mem_nil e), ?_⟩
  rcases process_shape svc env now t rawText with ⟨hst, _⟩ | ⟨s, _, hst⟩
  · rw [hst]
    exact ⟨rfl, rfl, hinv⟩
  · rw [hst]
    refine ⟨rfl, rfl, fun e he => ?_⟩
    rcases List.mem_append.mp he with hmem | hmem
    · exact hinv e hmem
    · rw [List.mem_singleton.mp hmem]
      exact ⟨rfl, rfl⟩

/-- Witness for C3: one successful turn on an empty session keeps every
entry on the session's language pair. -/
theorem process_lang_invariant_witness :
    langInv (⟨"es", "hi", []⟩ : LiveTranslator) ∧
    (process (fun _ _ _ => SvcResult.ok (some "नमस्ते")) SpeakEnv.allOk
      "12:00:00" ⟨"es", "hi", []⟩ "hola").state.source_lang = "es" ∧
    (process (fun _ _ _ => SvcResult.ok (some "नमस्ते")) SpeakEnv.allOk
      "12:00:00" ⟨"es", "hi", []⟩ "hola").state.target_lang = "hi" ∧
    langInv (process (fun _ _ _ => SvcResult.ok (some "नमस्ते")) SpeakEnv.allOk
      "12:00:00" ⟨"es", "hi", []⟩ "hola").state := by
  have h := process_lang_invariant (fun _ _ _ => SvcResult.ok (some "नमस्ते"))
    SpeakEnv.allOk "12:00:00" ⟨"es", "hi", []⟩ "hola" "es" "hi"
    (fun e he => absurd he (List.not_mem_nil e))
  exact ⟨h.1, h.2.1, h.2.2.1, h.2.2.2⟩

/-- C4: the history is append-only — each process call either leaves it
unchanged or appends exactly one entry at the end, keeping every earlier
entry in place — and the rendered history view follows insertion order,
one row per entry, so a successful turn appends exactly one row and never
reorders or drops existing rows (identical turns each add their own
entry). -/
theorem process_append_only (svc : String → String → String → SvcResult)
    (env : SpeakEnv) (now : String) (t : LiveTranslator) (rawText : String) :
    ((process svc env now t rawText).state.history = t.history ∧
      showHistory (process svc env now t rawText).state = showHistory t) ∨
    (∃ e : ConversationEntry,
      (process svc env now t rawText).ret = some e ∧
      (process svc env now t rawText).state.history = t.history ++ [e] ∧
      showHistory (process svc env now t rawText).state =
        showHistory t ++ [rowOf e]) := by
  rcases process_shape svc env now t rawText with ⟨hst, _⟩ | ⟨s, hret, hst⟩
  · left
    rw [hst]
    exact ⟨rfl, rfl⟩
  · right
    refine ⟨⟨pyStrip rawText, s, t.source_lang, t.target_lang, now⟩, hret, ?_, ?_⟩
    · rw [hst]
    · rw [hst]
      simp [showHistory]

/-- C7: the outcome of a successful turn does not depend on the
speech-synthesis environment: for every environment — playback succeeding,
the audio imports missing, or the audio pipeline raising — the entry is
still created, appended to history, and returned, the main-thread console
output is unchanged, and no synthesis failure escapes (speak returns a
report instead of raising, so process is total). -/
theorem process_speak_immune (svc : String → String → String → SvcResult)
    (now : String) (t : LiveTranslator) (rawText s : String)
    (hfilter : looksLikeSpeech (pyStrip rawText) = true)
    (hsvc : svc t.source_lang t.target_lang (pyStrip rawText) =
      SvcResult.ok (some s))
    (hne : s ≠ "") :
    ∀ env : SpeakEnv,
      (process svc env now t rawText).ret =
        some ⟨pyStrip rawText, s, t.source_lang, t.target_lang, now⟩ ∧
      (process svc env now t rawText).state.history =
        t.history ++
          [⟨pyStrip rawText, s, t.source_lang, t.target_lang, now⟩] ∧
      (process svc env now t rawText).console =
        (process svc SpeakEnv.allOk now t rawText).console := by
  intro env
  have hne0 : pyStrip rawText ≠ "" := looksLikeSpeech_ne_empty hfilter
  unfold process translate
  simp [hne0, hfilter, hsvc, hne]

/-- Witness for C7: with an audio pipeline that raises, the entry is still
created and returned and the main console output matches the all-good
run. -/
theorem process_speak_immune_witness :
    (process (fun _ _ _ => SvcResult.ok (some "नमस्ते"))
      (SpeakEnv.audioFails "no audio device") "12:00:00"
      ⟨"es", "hi", []⟩ "hola").ret =
      some ⟨pyStrip "hola", "नमस्ते", "es", "hi", "12:00:00"⟩ ∧
    (process (fun _ _ _ => SvcResult.ok (some "नमस्ते"))
      (SpeakEnv.audioFails "no audio device") "12:00:00"
      ⟨"es", "hi", []⟩ "hola").state.history =
      [] ++ [⟨pyStrip "hola", "नमस्ते", "es", "hi", "12:00:00"⟩] ∧
    (process (fun _ _ _ => SvcResult.ok (some "नमस्ते"))
      (SpeakEnv.audioFails "no audio device") "12:00:00"
      ⟨"es", "hi", []⟩ "hola").console =
      (process (fun _ _ _ => SvcResult.ok (some "नमस्ते")) SpeakEnv.allOk
        "12:00:00" ⟨"es", "hi", []⟩ "hola").console :=
  process_speak_immune (fun _ _ _ => SvcResult.ok (some "नमस्ते"))
    "12:00:00" ⟨"es", "hi", []⟩ "hola" "नमस्ते" (by decide) rfl (by decide)
    (SpeakEnv.audioFails "no audio device")

/-- C9 counterexample: with a raising service, the turn fails (nothing is
returned) yet the original text was already echoed to the console —
refuting the claim that a failed turn emits neither the original nor a
translation. -/
theorem process_echo_counterexample :
    (process (fun _ _ _ => SvcResult.err "network down") SpeakEnv.allOk
      "12:00:00" ⟨"es", "hi", []⟩ "hola").ret = none ∧
    hasShowOriginal
      (process (fun _ _ _ => SvcResult.err "network down") SpeakEnv.allOk
        "12:00:00" ⟨"es", "hi", []⟩ "hola").console = true := by
  decide

/-- C9 amended: for every input that passes the plausibility filter, the
original text is echoed to the output surface unconditionally — before
the translation call, hence also on turns whose translation fails or
comes back empty — while the translated text is emitted exactly when the
translation yields a non-empty string. -/
theorem process_echo (svc : String → String → String → SvcResult)
    (env : SpeakEnv) (now : String) (t : LiveTranslator) (rawText : String)
    (hfilter : looksLikeSpeech (pyStrip rawText) = true) :
    hasShowOriginal (process svc env now t rawText).console = true ∧
    (hasShowTranslated (process svc env now t rawText).console = true ↔
      svcValue (svc t.source_lang t.target_lang (pyStrip rawText)) ≠ "") := by
  have hne0 : pyStrip rawText ≠ "" := looksLikeSpeech_ne_empty hfilter
  unfold process translate
  cases hres : svc t.source_lang t.target_lang (pyStrip rawText) with
  | ok r =>
    by_cases hr : r.getD "" = ""
    · simp [hne0, hfilter, hres, hr, svcValue,
        hasShowOriginal, hasShowTranslated]
    · simp [hne0, hfilter, hres, hr, svcValue,
        hasShowOriginal, hasShowTranslated]
  | err e =>
    simp [hne0, hfilter, hres, svcValue, hasShowOriginal, hasShowTranslated]

/-- Witness for C9: a successful turn echoes the original and emits the
translation. -/
theorem process_echo_witness :
    hasShowOriginal
      (process (fun _ _ _ => SvcResult.ok (some "नमस्ते")) SpeakEnv.allOk
        "12:00:00" ⟨"es", "hi", []⟩ "hola").console = true ∧
    hasShowTranslated
      (process (fun _ _ _ => SvcResult.ok (some "नमस्ते")) SpeakEnv.allOk
        "12:00:00" ⟨"es", "hi", []⟩ "hola").console = true := by
  have h := process_echo (fun _ _ _ => SvcResult.ok (some "नमस्ते"))
    SpeakEnv.allOk "12:00:00" ⟨"es", "hi", []⟩ "hola" (by decide)
  exact ⟨h.1, h.2.mpr (by decide)⟩

end Translator
